import Mathlib

/-!
# Verification of the rental-listings backend core

Shallow embedding of the core logic of the rental-listings REST backend:
token verification (`helpers/token_verification.py`), authentication and the
OTP password-reset flow (`routers/auth.py`), apartment search
(`routers/apartments.py`), listing filtering (`routers/listings.py`) and user
registration (`routers/user.py`).

Conventions of the embedding:
* Timestamps are natural numbers counting seconds (`datetime` values compared
  with `>` / added to `timedelta`s become `Nat` comparisons; `timedelta(minutes=m)`
  becomes `m * 60`).
* Python exceptions are modelled with `Except PyExc`; an uncaught exception is
  an `Except.error`.  FastAPI `HTTPException`s raised deliberately by the code
  are modelled as ordinary rejection values (`ApiError`), since they are the
  code's controlled answers, not crashes.
* The relational store is a Lean list of rows; `query(...).filter(...).first()`
  becomes `List.find?`, `.all()` becomes `List.filter`, `update` becomes
  `List.map` guarded on the filter.
-/

namespace RentalListings

/-- Python exceptions that can escape the embedded code uncaught. -/
inductive PyExc where
  | typeError
  | indexError
  | attributeError
  | valueError
  | expiredSignatureError
  | jwtError
deriving DecidableEq, Repr

/-- Deliberate rejections surfaced by the endpoints as `HTTPException`s:
404 for a missing record, 425 for the OTP cooldown, 400 for an expired or
incorrect OTP. -/
inductive ApiError where
  | notFound
  | tooEarly
  | otpExpired
  | incorrectOtp
deriving DecidableEq, Repr

/-- A row of the `users` table (`database/models.py`, class `User`), restricted
to the columns the verified operations read or write.  `otp` and
`otp_generation_timestamp` are nullable columns, hence `Option`. -/
structure UserRow where
  id : String
  name : String
  email : String
  password : String
  otp : Option String
  otp_generation_timestamp : Option Nat
  is_active : Bool
  verify_user : Bool
deriving DecidableEq, Repr

/-- A row of the `apartments` table (`database/models.py`, class `Apartment`).
`name_token` is the `TSVECTOR` search-index column, modelled as the list of
its (lower-cased) lexemes. -/
structure ApartmentRow where
  id : String
  name : String
  city : String
  pincode : String
  name_token : List String
deriving DecidableEq, Repr

/-- A row of the `listings` table (`database/models.py`, class `Listing`),
restricted to the columns the listing filter reads. -/
structure ListingRow where
  id : String
  title : String
  listing_type : String
  bedrooms : Int
  apartment_id : String
deriving DecidableEq, Repr

/-! ## Python string primitives used by the code -/

/-- Auxiliary scan for `strContains`: does `pat` occur as a contiguous
sub-list of the character list? -/
def containsSubAux (pat : List Char) : List Char → Bool
  | [] => pat.isEmpty
  | c :: rest => pat.isPrefixOf (c :: rest) || containsSubAux pat rest

/-- Python's substring test `pat in s`. -/
def strContains (s pat : String) : Bool :=
  containsSubAux pat.data s.data

/-- Python's `str.split(" ")` on character lists: split on every single
space, keeping empty fields. -/
def splitOnSpaceAux : List Char → List (List Char)
  | [] => [[]]
  | c :: rest =>
    if c = ' ' then [] :: splitOnSpaceAux rest
    else
      match splitOnSpaceAux rest with
      | [] => [[c]]
      | h :: t => (c :: h) :: t

/-- Python's `s.split(" ")`. -/
def pySplitSpace (s : String) : List String :=
  (splitOnSpaceAux s.data).map (fun cs => String.mk cs)

/-- Python's `str.lower()`, character by character. -/
def pyLower (s : String) : String :=
  String.mk (s.data.map Char.toLower)

/-! ## Token service (`helpers/token_verification.py`, `routers/auth.py`) -/

/-- The claim set a signed token carries: `sub`, `exp` and `iat`
(`create_access_token` in `routers/auth.py`). -/
structure Claims where
  sub : String
  exp : Nat
  iat : Nat
deriving DecidableEq, Repr

/-- Errors raised by the external `jose` signer's `decode`. -/
inductive JoseError where
  | expiredSignature
  | jwtError
deriving DecidableEq, Repr

/-- Modelled from the spec: the external token signer consumed by the code
(`jose.jwt.encode` / `jose.jwt.decode` with the configured secret and
algorithm), which the repository does not implement itself.  `decode` receives
the current time because `jose` validates the `exp` claim itself, raising
`ExpiredSignatureError` once the expiry has passed. -/
structure Signer where
  encode : Claims → String
  decode : String → Nat → Except JoseError Claims

/-- The dynamic value `decode_token` can evaluate to: the Python literal
`False` (returned when the bearer prefix is absent) or the decoded claim
dictionary. -/
inductive DecodeVal where
  | pyFalse
  | pyClaims (c : Claims)
deriving DecidableEq, Repr

/-- Embedding of `decode_token` (`helpers/token_verification.py` lines 11-21): `token` is
the raw `Authorization` header, `None` when the header is absent (membership
test on `None` raises `TypeError`).  If `"Bearer"` does not occur in the
header the function returns `False`; otherwise it splits on spaces, takes
element 1 and hands it to the signer, whose exceptions propagate. -/
def decode_token (S : Signer) (now : Nat) (token : Option String) :
    Except PyExc DecodeVal :=
  match token with
  | none => .error .typeError
  | some t =>
    if strContains t "Bearer" = false then .ok .pyFalse
    else
      match (pySplitSpace t).get? 1 with
      | none => .error .indexError
      | some part =>
        match S.decode part now with
        | .error .expiredSignature => .error .expiredSignatureError
        | .error .jwtError => .error .jwtError
        | .ok c => .ok (.pyClaims c)

/-- Embedding of `generate_id_from_token` (`helpers/token_verification.py` lines 24-33):
catches only `ExpiredSignatureError` (returning `False`); subscripting the
`False` returned for a bearer-less header raises `TypeError`.  On a decoded
token it re-derives expiry (`utcnow() > fromtimestamp(exp)`) and compares the
`sub` claim with `str(user_id)`. -/
def generate_id_from_token (S : Signer) (now : Nat) (token : Option String)
    (user_id : String) : Except PyExc Bool :=
  match decode_token S now token with
  | .error .expiredSignatureError => .ok false
  | .error e => .error e
  | .ok .pyFalse => .error .typeError
  | .ok (.pyClaims c) => .ok (c.sub == user_id && !(decide (c.exp < now)))

/-- Embedding of `verify_id_from_token` (`helpers/token_verification.py` lines 36-49):
same decoding and expiry handling, then looks the decoded subject up in the
`users` table. -/
def verify_id_from_token (S : Signer) (now : Nat) (token : Option String)
    (db : List UserRow) : Except PyExc Bool :=
  match decode_token S now token with
  | .error .expiredSignatureError => .ok false
  | .error e => .error e
  | .ok .pyFalse => .error .typeError
  | .ok (.pyClaims c) =>
    if c.exp < now then .ok false
    else .ok (db.find? (fun u => u.id == c.sub)).isSome

/-- Embedding of `create_access_token` (`routers/auth.py` lines 93-105) with
`data = {"sub": sub}`: signs `{sub, exp = now + minutes * 60, iat = now}`.
`expireMinutes` is the `ACCESS_TOKEN_EXPIRE_MINUTES` configuration value. -/
def create_access_token (S : Signer) (expireMinutes : Nat) (sub : String)
    (now : Nat) : String :=
  S.encode { sub := sub, exp := now + expireMinutes * 60, iat := now }

/-! ## OTP password-reset flow (`routers/auth.py`) -/

/-- Modelled from the spec: `passlib`'s `pbkdf2_sha256.hash`, the external
password-hashing routine (`get_password_hash` in `routers/auth.py`), modelled
as a tagging function; no verified property depends on its internals. -/
def get_password_hash (password : String) : String :=
  "pbkdf2-sha256$" ++ password

/-- The projection `fp_get_email` selects (`routers/auth.py` lines 165-170). -/
structure EmailRecord where
  id : String
  email : String
  otp_generation_timestamp : Option Nat
deriving DecidableEq, Repr

/-- Embedding of `fp_get_email` (`routers/auth.py` lines 165-170): first user whose email
equals the lower-cased argument. -/
def fp_get_email (db : List UserRow) (email : String) : Option EmailRecord :=
  (db.find? (fun u => u.email == pyLower email)).map
    (fun u => ⟨u.id, u.email, u.otp_generation_timestamp⟩)

/-- Embedding of `verify_email_address` (`routers/auth.py` lines 226-244): 404 when the
email is unknown; 425 `TooEarly` when an OTP timestamp is set (truthy) and
fewer than 5 minutes have elapsed since it. -/
def verify_email_address (db : List UserRow) (email : String) (now : Nat) :
    Except ApiError EmailRecord :=
  match fp_get_email db email with
  | none => .error .notFound
  | some record =>
    match record.otp_generation_timestamp with
    | some ts =>
      if now < ts + 5 * 60 then .error .tooEarly else .ok record
    | none => .ok record

/-- Embedding of `fp_generate_otp` (`routers/auth.py` lines 173-177): store the fresh OTP
and stamp it with the current time on the row with the given id. -/
def fp_generate_otp (db : List UserRow) (id otp : String) (now : Nat) :
    List UserRow :=
  db.map (fun u =>
    if u.id == id then
      { u with otp := some otp, otp_generation_timestamp := some now }
    else u)

/-- The `generate_otp` endpoint (`routers/auth.py` lines 247-258) with the
freshly drawn `secrets.token_hex(3).upper()` code passed in as `otp`. -/
def generate_otp (db : List UserRow) (id otp : String) (now : Nat) :
    List UserRow :=
  fp_generate_otp db id otp now

/-- The request-otp operation of the reset flow (spec section 6): the client
first hits `GET /email/{email}` (`verify_email_address`), which enforces the
404 and the 5-minute cooldown, and only on success `PUT /otp/{id}`
(`generate_otp`) with the returned record's id.  A rejection leaves the store
untouched. -/
def request_otp (db : List UserRow) (email otp : String) (now : Nat) :
    Except ApiError String × List UserRow :=
  match verify_email_address db email now with
  | .error e => (.error e, db)
  | .ok record => (.ok "Otp generated", generate_otp db record.id otp now)

/-- Embedding of `fp_validate_otp` (`routers/auth.py` lines 180-181): first user — any
user — whose stored `otp` column equals the submitted code. -/
def fp_validate_otp (db : List UserRow) (otp : String) : Option UserRow :=
  db.find? (fun u => u.otp == some otp)

/-- Embedding of `fp_change_password` (`routers/auth.py` lines 184-186). -/
def fp_change_password (db : List UserRow) (id password : String) :
    List UserRow :=
  db.map (fun u => if u.id == id then { u with password := password } else u)

/-- The `change_password` endpoint (`routers/auth.py` lines 292-310).
`record` may be `None` (attribute access raises) and its timestamp may be the
`NULL` column value (adding a `timedelta` raises); otherwise: 400 `Expired`
when more than 10 minutes have passed since the timestamp, 400 `IncorrectOtp`
when no user's stored OTP equals the submitted code, and otherwise the target
user's password is replaced by the hash of the new one. -/
def change_password (db : List UserRow) (id otp password : String)
    (now : Nat) : Except PyExc (Except ApiError String) × List UserRow :=
  match db.find? (fun u => u.id == id) with
  | none => (.error .attributeError, db)
  | some record =>
    match record.otp_generation_timestamp with
    | none => (.error .typeError, db)
    | some ts =>
      if ts + 10 * 60 < now then (.ok (.error .otpExpired), db)
      else if (fp_validate_otp db otp).isSome then
        (.ok (.ok "Password changed successfully"),
          fp_change_password db id (get_password_hash password))
      else (.ok (.error .incorrectOtp), db)

/-! ## Apartment search (`routers/apartments.py`) -/

/-- Modelled from the spec: `helpers/stop_words.py` is absent from the
sources.  The spec fixes a case-sensitive stop-word set of which it names
`"The"` as a member and treats `"Green"` and `"Meadows"` as non-members. -/
def stop_words : List String := ["The"]

/-- Python's `list.remove(w)`: delete the first occurrence of `w`. -/
def pyRemoveFirst (xs : List String) (w : String) : List String :=
  match xs with
  | [] => []
  | x :: rest => if x = w then rest else x :: pyRemoveFirst rest w

theorem pyRemoveFirst_length_le (xs : List String) (w : String) :
    (pyRemoveFirst xs w).length ≤ xs.length := by
  induction xs with
  | nil => simp [pyRemoveFirst]
  | cons x rest ih =>
    simp only [pyRemoveFirst]
    split
    · simp
    · simpa using Nat.succ_le_succ ih

/-- The stop-word loop of `search_apartments` (`routers/apartments.py` lines
236-239), with Python's list-iterator semantics: the iterator index advances
after every iteration even when the current element was removed, and
`list.remove` deletes the first occurrence of the value.  The structural
`fuel` bounds the number of iterations; the loop exits as soon as the index
reaches the current length. -/
def stopWordLoopF (sw : List String) : Nat → List String → Nat → List String
  | 0, lst, _ => lst
  | fuel + 1, lst, i =>
    if h : i < lst.length then
      if lst.get ⟨i, h⟩ ∈ sw then
        stopWordLoopF sw fuel (pyRemoveFirst lst (lst.get ⟨i, h⟩)) (i + 1)
      else stopWordLoopF sw fuel lst (i + 1)
    else lst

/-- The stop-word loop entered at index `i`.  Python's `for` loop executes at
most `lst.length` iterations — the index advances every iteration and the
list never grows — so that much fuel makes `stopWordLoopF` exit exactly when
the index reaches the current length, as the interpreter does. -/
def stopWordLoop (sw : List String) (lst : List String) (i : Nat) :
    List String :=
  stopWordLoopF sw lst.length lst i

/-- The token list `search_apartments` computes before choosing the prefix
(`routers/apartments.py` lines 234-239): split on spaces; when more than one
token, run the stop-word removal loop. -/
def searchTokens (name : String) : List String :=
  let ss := pySplitSpace name
  if 1 < ss.length then stopWordLoop stop_words ss 0 else ss

/-- The search-pattern stem (`routers/apartments.py` lines 241-259): with
exactly one remaining token, the first three characters of that token;
otherwise the first three characters of the *second* token (an `IndexError`
if it does not exist). -/
def searchStem (name : String) : Except PyExc String :=
  let ss := searchTokens name
  if ss.length = 1 then
    match ss.get? 0 with
    | none => .error .indexError
    | some t => .ok (t.take 3)
  else
    match ss.get? 1 with
    | none => .error .indexError
    | some t => .ok (t.take 3)

/-- Postgres `tsvector @@ to_tsquery(stem ++ ":*")`, the semantics of
`Apartment.name_token.match(f"{stem}:*")`: `to_tsquery` lower-cases the stem
and the match succeeds when some lexeme of the vector starts with it. -/
def tsMatchStem (name_token : List String) (stem : String) : Bool :=
  name_token.any (fun lexeme => (pyLower stem).isPrefixOf lexeme)

/-- The record shape the search endpoint returns per apartment
(`routers/apartments.py` lines 264-268). -/
structure SearchResult where
  name : String
  city : String
  pincode : String
deriving DecidableEq, Repr

/-- Embedding of `search_apartments` (`routers/apartments.py` lines 229-268): a falsy
`name` short-circuits to Python `None`; otherwise the stem is computed from
the tokens, the store is filtered by the tsvector match and pincode equality,
and the matches are projected (an empty filter result yields `[]`). -/
def search_apartments (db : List ApartmentRow) (name pincode : String) :
    Except PyExc (Option (List SearchResult)) :=
  if name = "" then .ok none
  else
    match searchStem name with
    | .error e => .error e
    | .ok stem =>
      let records := db.filter
        (fun a => tsMatchStem a.name_token stem && a.pincode == pincode)
      .ok (some (records.map (fun a => ⟨a.name, a.city, a.pincode⟩)))

/-! ## Listing filter (`routers/listings.py`) -/

/-- Python truthiness of an optional string (`if type_of_listing:` /
`if bedrooms:`): `None` and `""` are falsy. -/
def pyTruthy : Option String → Bool
  | none => false
  | some s => s ≠ ""

/-- Digit-string accumulator for `pyInt`. -/
def pyIntAux : Nat → List Char → Option Nat
  | acc, [] => some acc
  | acc, c :: rest =>
    if c.isDigit then pyIntAux (acc * 10 + (c.toNat - 48)) rest else none

/-- Python's `int(s)` on the bedrooms filter value: an optional sign followed
by at least one decimal digit; `none` models the `ValueError` raised on a
non-numeral (such as the untaken literal `"3+"`). -/
def pyInt (s : String) : Option Int :=
  match s.data with
  | [] => none
  | '-' :: rest =>
    if rest.isEmpty then none
    else (pyIntAux 0 rest).map (fun n => -(n : Int))
  | '+' :: rest =>
    if rest.isEmpty then none
    else (pyIntAux 0 rest).map (fun n => (n : Int))
  | cs => (pyIntAux 0 cs).map (fun n => (n : Int))

/-- The join `filter_listings` starts from (`routers/listings.py` lines
146-166): listing columns plus `Apartment.name` labelled `apartment`, joined
on `Listing.apartment_id == Apartment.id`.  A result row is the listing row
paired with its apartment's name. -/
def joinedListings (listings : List ListingRow)
    (apartments : List ApartmentRow) : List (ListingRow × String) :=
  listings.flatMap (fun l =>
    (apartments.filter (fun a => l.apartment_id == a.id)).map
      (fun a => (l, a.name)))

/-- Embedding of `filter_listings` (`routers/listings.py` lines 145-179): optionally filter
by lower-cased listing type, then by bedrooms — the literal `"3+"` meaning
`bedrooms > 3` and any other truthy value an exact match against `int(value)`
— and always by apartment-name equality. -/
def filter_listings (type_of_listing bedrooms : Option String)
    (apartment : String) (listings : List ListingRow)
    (apartments : List ApartmentRow) :
    Except PyExc (List (ListingRow × String)) :=
  let joined := joinedListings listings apartments
  let step1 :=
    if pyTruthy type_of_listing then
      joined.filter
        (fun r => r.1.listing_type == pyLower (type_of_listing.getD ""))
    else joined
  let step2 : Except PyExc (List (ListingRow × String)) :=
    if pyTruthy bedrooms then
      if bedrooms.getD "" = "3+" then
        .ok (step1.filter (fun r => 3 < r.1.bedrooms))
      else
        match pyInt (bedrooms.getD "") with
        | none => .error .valueError
        | some n => .ok (step1.filter (fun r => r.1.bedrooms == n))
    else .ok step1
  match step2 with
  | .error e => .error e
  | .ok rows => .ok (rows.filter (fun r => r.2 == apartment))

/-! ## User registration (`routers/user.py`) -/

/-- Python's `str.title()` used by `create_new_user` on the name: upper-case
every alphabetic character that follows a non-alphabetic one, lower-case the
rest. -/
def pyTitleAux : Bool → List Char → List Char
  | _, [] => []
  | prevAlpha, c :: rest =>
    let c' := if c.isAlpha then (if prevAlpha then c.toLower else c.toUpper)
              else c
    c' :: pyTitleAux c.isAlpha rest

/-- Python's `str.title()`. -/
def pyTitle (s : String) : String :=
  String.mk (pyTitleAux false s.data)

/-- Embedding of `check_for_existing_email` (`routers/user.py` lines 76-77): first user
whose stored email equals the lower-cased submitted one. -/
def check_for_existing_email (db : List UserRow) (email : String) :
    Option UserRow :=
  db.find? (fun u => u.email == pyLower email)

/-- Embedding of `create_new_user` (`routers/user.py` lines 63-73): insert a row with
title-cased name, lower-cased email and hashed password.  `newId` stands for
the generated UUID primary key. -/
def create_new_user (db : List UserRow) (name email password newId : String) :
    UserRow × List UserRow :=
  let nu : UserRow :=
    { id := newId, name := pyTitle name, email := pyLower email,
      password := get_password_hash password, otp := none,
      otp_generation_timestamp := none, is_active := true,
      verify_user := false }
  (nu, db ++ [nu])

/-- What `register_user` answers: the duplicate-email message, or the data of
the created user. -/
inductive RegisterResult where
  | message (text : String)
  | created (id name email : String)
deriving DecidableEq, Repr

/-- Embedding of `register_user` (`routers/user.py` lines 146-169): an existing email
(after lower-casing) short-circuits to a message without touching the store;
otherwise the user is created and returned (the issued token is out of this
operation's state). -/
def register_user (db : List UserRow) (name email password newId : String) :
    RegisterResult × List UserRow :=
  match check_for_existing_email db email with
  | some _ =>
    (.message (email ++ " already exists. Please pick a different email address."),
      db)
  | none =>
    let r := create_new_user db name email password newId
    (.created r.1.id r.1.name r.1.email, r.2)

/-! ## Support lemmas: strings and headers -/

theorem splitOnSpaceAux_no_space (cs : List Char) (h : ' ' ∉ cs) :
    splitOnSpaceAux cs = [cs] := by
  induction cs with
  | nil => simp [splitOnSpaceAux]
  | cons c rest ih =>
    simp only [List.mem_cons, not_or] at h
    simp [splitOnSpaceAux, Ne.symm h.1, ih h.2]

theorem pySplitSpace_bearer (s : String) (h : ' ' ∉ s.data) :
    pySplitSpace ("Bearer " ++ s) = ["Bearer", s] := by
  have hd : ("Bearer " ++ s).data
      = 'B' :: 'e' :: 'a' :: 'r' :: 'e' :: 'r' :: ' ' :: s.data := by
    show ("Bearer ".data ++ s.data) = _
    rfl
  simp [pySplitSpace, hd, splitOnSpaceAux, splitOnSpaceAux_no_space s.data h]

theorem strContains_bearer (s : String) :
    strContains ("Bearer " ++ s) "Bearer" = true := by
  have hd : ("Bearer " ++ s).data
      = 'B' :: 'e' :: 'a' :: 'r' :: 'e' :: 'r' :: ' ' :: s.data := by
    show ("Bearer ".data ++ s.data) = _
    rfl
  simp [strContains, hd, containsSubAux, List.isPrefixOf]

theorem decode_token_bearer (S : Signer) (now : Nat) (jwt : String)
    (h : ' ' ∉ jwt.data) :
    decode_token S now (some ("Bearer " ++ jwt)) =
      match S.decode jwt now with
      | .error .expiredSignature => .error .expiredSignatureError
      | .error .jwtError => .error .jwtError
      | .ok c => .ok (.pyClaims c) := by
  simp [decode_token, strContains_bearer, pySplitSpace_bearer jwt h]

/-! ## C1: the guard on absent or bearer-less Authorization headers -/

/-- C1.  The claim says the request guard returns a failure value for every
request whose Authorization header is absent or lacks the Bearer scheme.  The
code does not: `decode_token` returns the Python literal `False` for a header
without `"Bearer"`, and both guards immediately subscript that value
(`decoded_token["exp"]`), raising an uncaught `TypeError`; an absent header
(`None`) already crashes the membership test inside `decode_token`.  This
theorem evaluates the guards at those failing inputs. -/
theorem guard_crashes_without_bearer :
    (∀ (S : Signer) (now : Nat) (uid : String),
       generate_id_from_token S now none uid = .error .typeError) ∧
    (∀ (S : Signer) (now : Nat) (uid : String),
       strContains "not-a-bearer-header" "Bearer" = false ∧
       generate_id_from_token S now (some "not-a-bearer-header") uid =
         .error .typeError) ∧
    (∀ (S : Signer) (now : Nat) (db : List UserRow),
       verify_id_from_token S now none db = .error .typeError ∧
       verify_id_from_token S now (some "not-a-bearer-header") db =
         .error .typeError) := by
  refine ⟨fun S now uid => rfl, fun S now uid => ⟨rfl, rfl⟩,
    fun S now db => ⟨rfl, rfl⟩⟩

/-! ## C4: token issuance / validation round trip -/

/-- C4.  Round trip of `create_access_token` and `generate_id_from_token`:
for a signer behaving as `jose` does on the issued token (decoding inverts
encoding and enforces the `exp` claim; the encoded token contains no space),
validation of the header `Bearer <token>` with the issuing subject succeeds
at every instant strictly before issuance time plus the configured minutes,
and fails at every instant strictly after. -/
theorem token_roundtrip (S : Signer) (X : String) (minutes t0 t : Nat)
    (hdec : ∀ t', S.decode (create_access_token S minutes X t0) t' =
      if t0 + minutes * 60 < t' then .error .expiredSignature
      else .ok ⟨X, t0 + minutes * 60, t0⟩)
    (hsp : ' ' ∉ (create_access_token S minutes X t0).data) :
    (t < t0 + minutes * 60 →
      generate_id_from_token S t
        (some ("Bearer " ++ create_access_token S minutes X t0)) X =
        .ok true) ∧
    (t0 + minutes * 60 < t →
      generate_id_from_token S t
        (some ("Bearer " ++ create_access_token S minutes X t0)) X =
        .ok false) := by
  constructor
  · intro ht
    have hnotlt : ¬ t0 + minutes * 60 < t := by omega
    unfold generate_id_from_token
    rw [decode_token_bearer S t _ hsp, hdec t, if_neg hnotlt]
    simp [hnotlt]
  · intro ht
    unfold generate_id_from_token
    rw [decode_token_bearer S t _ hsp, hdec t, if_pos ht]

/-- A concrete signer for the round-trip witness: it issues the literal token
`"tok"` for the single claim set `⟨"42", 600, 0⟩`. -/
def witnessSigner : Signer where
  encode := fun _ => "tok"
  decode := fun s t' =>
    if s = "tok" then
      if 600 < t' then .error .expiredSignature else .ok ⟨"42", 600, 0⟩
    else .error .jwtError

theorem token_roundtrip_witness :
    (5 < 0 + 10 * 60) ∧
    generate_id_from_token witnessSigner 5
      (some ("Bearer " ++ create_access_token witnessSigner 10 "42" 0)) "42" =
      .ok true := by
  refine ⟨by decide, ?_⟩
  exact (token_roundtrip witnessSigner "42" 10 0 5
    (by intro t'; simp [create_access_token, witnessSigner])
    (by decide)).1 (by decide)

/-! ## C2: `change_password` matches the OTP against every user -/

/-- User A of the cross-user OTP scenario: stored OTP `"AAAAAA"`, issued at
time 1000. -/
def otpUserA : UserRow :=
  { id := "uA", name := "Alice", email := "a@x.com", password := "hashA",
    otp := some "AAAAAA", otp_generation_timestamp := some 1000,
    is_active := true, verify_user := true }

/-- User B of the cross-user OTP scenario: stored OTP `"BBBBBB"`. -/
def otpUserB : UserRow :=
  { id := "uB", name := "Bob", email := "b@x.com", password := "hashB",
    otp := some "BBBBBB", otp_generation_timestamp := some 1000,
    is_active := true, verify_user := true }

/-- C2.  `fp_validate_otp` filters on `User.otp == otp` over the whole table,
so `change_password` accepts a code stored against a *different* user: with
A's OTP distinct from the submitted code `"BBBBBB"`, B's OTP equal to it, and
A's timestamp 100 seconds old (within the 10-minute window), the call for A
succeeds and replaces A's password. -/
theorem change_password_accepts_other_users_otp :
    otpUserA.otp ≠ some "BBBBBB" ∧
    otpUserB.otp = some "BBBBBB" ∧
    otpUserA.otp_generation_timestamp = some 1000 ∧
    ((1100 : Nat) ≤ 1000 + 10 * 60) ∧
    change_password [otpUserA, otpUserB] "uA" "BBBBBB" "newpw" 1100 =
      (.ok (.ok "Password changed successfully"),
        [{ otpUserA with password := get_password_hash "newpw" }, otpUserB]) :=
  ⟨by decide, rfl, rfl, by decide, rfl⟩

/-! ## C5: the 5-minute OTP cooldown -/

/-- C5.  A second OTP request for a user in the OtpIssued state (stored OTP
and timestamp present) made less than 5 minutes after the previous issuance
is rejected with `TooEarly`, and the store — in particular the stored OTP and
its timestamp — is left untouched.  The cooldown is enforced by
`verify_email_address`, which the reset flow calls before `generate_otp`. -/
theorem otp_request_cooldown (db : List UserRow) (email code : String)
    (now ts : Nat) (u : UserRow)
    (hfind : db.find? (fun v => v.email == pyLower email) = some u)
    (_hotp : u.otp.isSome)
    (hts : u.otp_generation_timestamp = some ts)
    (hlt : now < ts + 5 * 60) :
    request_otp db email code now = (.error .tooEarly, db) := by
  unfold request_otp verify_email_address fp_get_email
  rw [hfind]
  simp [hts, hlt]

theorem otp_request_cooldown_witness :
    request_otp [otpUserA] "a@x.com" "CCCCCC" 1100 =
      (.error .tooEarly, [otpUserA]) :=
  otp_request_cooldown [otpUserA] "a@x.com" "CCCCCC" 1100 1000 otpUserA
    (by decide) rfl rfl (by decide)

/-! ## C6: OTP consumption after the 10-minute window -/

/-- C6.  Consuming an OTP strictly more than 10 minutes after its timestamp
is rejected with `Expired` even when the submitted code equals the stored
OTP, and the store — in particular the user's password — is unchanged. -/
theorem change_password_rejects_expired_otp (db : List UserRow)
    (id code pw : String) (now ts : Nat) (u : UserRow)
    (hfind : db.find? (fun v => v.id == id) = some u)
    (hts : u.otp_generation_timestamp = some ts)
    (_hmatch : u.otp = some code)
    (hexp : ts + 10 * 60 < now) :
    change_password db id code pw now = (.ok (.error .otpExpired), db) := by
  unfold change_password
  rw [hfind]
  simp [hts, hexp]

theorem change_password_rejects_expired_otp_witness :
    change_password [otpUserA] "uA" "AAAAAA" "newpw" 1700 =
      (.ok (.error .otpExpired), [otpUserA]) :=
  change_password_rejects_expired_otp [otpUserA] "uA" "AAAAAA" "newpw"
    1700 1000 otpUserA (by decide) rfl rfl (by decide)

/-! ## C10: registering an already-existing email -/

/-- C10.  When the submitted email already exists in the store under
case-insensitive comparison — with the store satisfying the data-model
invariant that emails are kept case-folded, which `create_new_user`
maintains — `register_user` answers the duplicate-email message and the
store is unchanged: no row is created and no exception escapes. -/
theorem register_existing_email_noop (db : List UserRow)
    (name email pw newId : String)
    (hinv : ∀ u ∈ db, pyLower u.email = u.email)
    (hex : ∃ u ∈ db, pyLower u.email = pyLower email) :
    register_user db name email pw newId =
      (.message
        (email ++ " already exists. Please pick a different email address."),
        db) := by
  obtain ⟨u, hu, heq⟩ := hex
  have hemail : u.email = pyLower email := by rw [← hinv u hu, heq]
  have hsome : (db.find? (fun v => v.email == pyLower email)).isSome := by
    rw [List.find?_isSome]
    exact ⟨u, hu, by simp [hemail]⟩
  obtain ⟨v, hv⟩ := Option.isSome_iff_exists.mp hsome
  unfold register_user check_for_existing_email
  rw [hv]

theorem register_existing_email_noop_witness :
    register_user [otpUserB] "Mallory" "B@X.com" "pw" "uM" =
      (.message
        ("B@X.com" ++ " already exists. Please pick a different email address."),
        [otpUserB]) :=
  register_existing_email_noop [otpUserB] "Mallory" "B@X.com" "pw" "uM"
    (by intro u hu; simp at hu; subst hu; decide)
    ⟨otpUserB, by simp, by decide⟩

/-! ## C9: bedroom filtering in `filter_listings` -/

/-- C9.  With the bedrooms argument present (truthy): the literal `"3+"`
keeps exactly the joined listings of the given apartment whose bedroom count
is strictly greater than 3; any other value keeps exactly those whose
bedroom count equals the value parsed as an integer; and the apartment-name
equality filter is applied in every case, including when neither optional
filter is set. -/
theorem filter_listings_bedrooms_semantics (listings : List ListingRow)
    (apartments : List ApartmentRow) (ap : String) :
    (filter_listings none (some "3+") ap listings apartments =
      .ok ((joinedListings listings apartments).filter
        (fun r => 3 < r.1.bedrooms && r.2 == ap))) ∧
    (∀ b n, pyTruthy (some b) = true → b ≠ "3+" → pyInt b = some n →
      filter_listings none (some b) ap listings apartments =
        .ok ((joinedListings listings apartments).filter
          (fun r => r.1.bedrooms == n && r.2 == ap))) ∧
    (filter_listings none none ap listings apartments =
      .ok ((joinedListings listings apartments).filter
        (fun r => r.2 == ap))) := by
  refine ⟨?_, ?_, ?_⟩
  · unfold filter_listings
    simp [pyTruthy, List.filter_filter, Bool.and_comm]
  · intro b n htruthy hne hint
    have hb : b ≠ "" := by simpa [pyTruthy] using htruthy
    unfold filter_listings
    simp [pyTruthy, hb, hne, hint, List.filter_filter, Bool.and_comm]
  · unfold filter_listings
    simp [pyTruthy]

/-- A two-listing store for the bedroom-filter witness. -/
def bedroomListings : List ListingRow :=
  [{ id := "l1", title := "4bhk", listing_type := "rent", bedrooms := 4,
     apartment_id := "ap1" },
   { id := "l2", title := "2bhk", listing_type := "rent", bedrooms := 2,
     apartment_id := "ap1" }]

/-- The apartment the bedroom-filter witness joins against. -/
def bedroomApartments : List ApartmentRow :=
  [{ id := "ap1", name := "Green Meadows", city := "Bengaluru",
     pincode := "500081", name_token := ["green", "meadows"] }]

theorem filter_listings_bedrooms_semantics_witness :
    filter_listings none (some "2") "Green Meadows"
      bedroomListings bedroomApartments =
      .ok ((joinedListings bedroomListings bedroomApartments).filter
        (fun r => r.1.bedrooms == (2 : Int) && r.2 == "Green Meadows")) :=
  (filter_listings_bedrooms_semantics bedroomListings bedroomApartments
    "Green Meadows").2.1 "2" 2 (by decide) (by decide) (by decide)

/-! ## Support lemmas: the search token loop -/

theorem pyRemoveFirst_length_mem (xs : List String) (w : String)
    (h : w ∈ xs) : (pyRemoveFirst xs w).length + 1 = xs.length := by
  induction xs with
  | nil => cases h
  | cons x rest ih =>
    by_cases hx : x = w
    · simp [pyRemoveFirst, hx]
    · have hr : w ∈ rest := by
        cases List.mem_cons.mp h with
        | inl he => exact absurd he.symm hx
        | inr hm => exact hm
      simp [pyRemoveFirst, hx, ih hr]

/-- Each loop iteration advances the index and removes at most one element,
so at most every second remaining position can disappear: the result keeps
at least `length - (length - i + 1) / 2` elements. -/
theorem stopWordLoopF_length (sw : List String) :
    ∀ (fuel : Nat) (lst : List String) (i : Nat),
      lst.length - i ≤ fuel →
      lst.length - (lst.length - i + 1) / 2 ≤
        (stopWordLoopF sw fuel lst i).length := by
  intro fuel
  induction fuel with
  | zero =>
    intro lst i h
    simp only [stopWordLoopF]
    omega
  | succ fuel ih =>
    intro lst i h
    rw [stopWordLoopF]
    by_cases hi : i < lst.length
    · rw [dif_pos hi]
      by_cases hmem : lst.get ⟨i, hi⟩ ∈ sw
      · rw [if_pos hmem]
        have hrem := pyRemoveFirst_length_mem lst (lst.get ⟨i, hi⟩)
          (List.get_mem lst i hi)
        have := ih (pyRemoveFirst lst (lst.get ⟨i, hi⟩)) (i + 1) (by omega)
        omega
      · rw [if_neg hmem]
        have := ih lst (i + 1) (by omega)
        omega
    · rw [dif_neg hi]
      omega

/-- The token list is never empty: splitting yields at least one field, and
when the removal loop runs the input has at least two tokens, of which at
least half the positions survive. -/
theorem searchTokens_ne_nil (name : String) : searchTokens name ≠ [] := by
  have hsplit : pySplitSpace name ≠ [] := by
    unfold pySplitSpace
    intro hcontra
    have haux : splitOnSpaceAux name.data ≠ [] := by
      cases hd : name.data with
      | nil => simp [splitOnSpaceAux]
      | cons c rest =>
        simp only [splitOnSpaceAux]
        split
        · simp
        · split <;> simp
    simp [haux] at hcontra
  unfold searchTokens stopWordLoop
  by_cases hlen : 1 < (pySplitSpace name).length
  · rw [if_pos hlen]
    have := stopWordLoopF_length stop_words (pySplitSpace name).length
      (pySplitSpace name) 0 (by omega)
    intro hcontra
    rw [hcontra] at this
    simp at this
    omega
  · rw [if_neg hlen]
    exact hsplit

/-- The stem computation can never hit its `IndexError` branches. -/
theorem searchStem_ok (name : String) :
    ∃ stem, searchStem name = .ok stem := by
  have hne := searchTokens_ne_nil name
  cases hts : searchTokens name with
  | nil => exact absurd hts hne
  | cons t0 rest =>
    cases rest with
    | nil =>
      refine ⟨t0.take 3, ?_⟩
      unfold searchStem
      rw [hts]
      simp
    | cons t1 rest2 =>
      refine ⟨t1.take 3, ?_⟩
      unfold searchStem
      rw [hts]
      simp

/-! ## C7: searching "Green Meadows" in pincode 500081 -/

/-- C7.  The query `"Green Meadows"` with pincode `"500081"` tokenizes to
`["Green", "Meadows"]`, loses no token to the stop-word pass, takes the
first three characters of the *second* token as the stem (`"Mea"`,
normalised to `"mea"` by `to_tsquery`), and returns exactly the apartments
whose indexed name has a lexeme starting with `"mea"` and whose pincode
equals `"500081"`. -/
theorem search_green_meadows (db : List ApartmentRow) :
    pySplitSpace "Green Meadows" = ["Green", "Meadows"] ∧
    searchTokens "Green Meadows" = ["Green", "Meadows"] ∧
    searchStem "Green Meadows" = .ok "Mea" ∧
    search_apartments db "Green Meadows" "500081" =
      .ok (some ((db.filter (fun a =>
          a.name_token.any (fun lexeme => "mea".isPrefixOf lexeme) &&
          a.pincode == "500081")).map
        (fun a => ⟨a.name, a.city, a.pincode⟩))) := by
  refine ⟨by decide, by decide, rfl, ?_⟩
  have hstem : searchStem "Green Meadows" = .ok "Mea" := rfl
  have hlow : pyLower "Mea" = "mea" := by decide
  simp [search_apartments, hstem, tsMatchStem, hlow]

/-! ## C8: shape of the search result -/

/-- C8 counterexample.  The claim says a falsy (empty) `name` yields an
empty result sequence; the code's early return
(`if not name: return None`) yields Python `None` instead, which is not the
empty sequence. -/
theorem search_empty_query_returns_none :
    search_apartments [] "" "500081" = .ok none ∧
    (Except.ok none : Except PyExc (Option (List SearchResult))) ≠
      .ok (some []) := by
  exact ⟨rfl, by simp⟩

/-- C8 amended.  A falsy `name` returns null (`None`), not an empty
sequence; for every non-empty `name` the endpoint raises nothing and
returns a (possibly empty) sequence — in particular the empty sequence, not
null, whenever no apartment matches. -/
theorem search_result_shape (db : List ApartmentRow) (name pincode : String)
    (hname : name ≠ "") :
    (∀ (db' : List ApartmentRow) (p : String),
      search_apartments db' "" p = .ok none) ∧
    (∃ stem, searchStem name = .ok stem ∧
      search_apartments db name pincode =
        .ok (some ((db.filter (fun a =>
            tsMatchStem a.name_token stem && a.pincode == pincode)).map
          (fun a => ⟨a.name, a.city, a.pincode⟩)))) := by
  constructor
  · intro db' p
    simp [search_apartments]
  · obtain ⟨stem, hstem⟩ := searchStem_ok name
    refine ⟨stem, hstem, ?_⟩
    simp [search_apartments, hname, hstem]

theorem search_result_shape_witness :
    (∀ (db' : List ApartmentRow) (p : String),
      search_apartments db' "" p = .ok none) ∧
    (∃ stem, searchStem "Green" = .ok stem ∧
      search_apartments [] "Green" "500081" =
        .ok (some ((([] : List ApartmentRow).filter (fun a =>
            tsMatchStem a.name_token stem && a.pincode == "500081")).map
          (fun a => ⟨a.name, a.city, a.pincode⟩)))) :=
  search_result_shape [] "Green" "500081" (by decide)

/-! ## C3: stop-word removal -/

/-- No two adjacent tokens are both stop words. -/
def NoAdjacentStops (sw l : List String) : Prop :=
  List.Chain' (fun a b => ¬(a ∈ sw ∧ b ∈ sw)) l

theorem pyRemoveFirst_append (pre rest : List String) (w : String)
    (hw : w ∉ pre) : pyRemoveFirst (pre ++ w :: rest) w = pre ++ rest := by
  induction pre with
  | nil => simp [pyRemoveFirst]
  | cons x xs ih =>
    simp only [List.mem_cons, not_or] at hw
    have hx : x ≠ w := fun h => hw.1 h.symm
    simp [pyRemoveFirst, hx, ih hw.2]

theorem stopWordLoopF_exit (sw : List String) (fuel : Nat)
    (lst : List String) (i : Nat) (h : lst.length ≤ i) :
    stopWordLoopF sw fuel lst i = lst := by
  cases fuel with
  | zero => rfl
  | succ fuel => rw [stopWordLoopF, dif_neg (by omega)]

/-- Characterization of the removal loop on inputs without adjacent stop
words: positions before the iterator index stay stop-word free, each removal
deletes exactly the current element (no earlier equal occurrence can exist),
and the skipped element cannot be a stop word, so the loop behaves like
`filter`. -/
theorem stopWordLoopF_filter (sw : List String) :
    ∀ (fuel : Nat) (suf pre : List String), suf.length ≤ fuel →
      (∀ a ∈ pre, a ∉ sw) →
      NoAdjacentStops sw (pre ++ suf) →
      stopWordLoopF sw fuel (pre ++ suf) pre.length =
        pre ++ suf.filter (fun w => decide (w ∉ sw)) := by
  intro fuel
  induction fuel with
  | zero =>
    intro suf pre hlen hpre hadj
    have hsuf : suf = [] := List.length_eq_zero.mp (Nat.le_zero.mp hlen)
    subst hsuf
    simp [stopWordLoopF]
  | succ fuel ih =>
    intro suf pre hlen hpre hadj
    cases suf with
    | nil =>
      rw [stopWordLoopF, dif_neg (by simp)]
      simp
    | cons w rest =>
      have hidx : pre.length < (pre ++ w :: rest).length := by simp
      have hget : (pre ++ w :: rest).get ⟨pre.length, hidx⟩ = w := by
        simp [List.get_eq_getElem, List.getElem_append_right]
      rw [stopWordLoopF, dif_pos hidx, hget]
      by_cases hw : w ∈ sw
      · rw [if_pos hw]
        have hwpre : w ∉ pre := fun hmem => (hpre w hmem) hw
        rw [pyRemoveFirst_append pre rest w hwpre]
        cases rest with
        | nil =>
          rw [stopWordLoopF_exit sw fuel (pre ++ []) (pre.length + 1)
            (by simp)]
          simp [hw]
        | cons y rest2 =>
          obtain ⟨hcpre, hcsuf, hjun⟩ := List.chain'_append.mp hadj
          have hy : y ∉ sw := by
            have hr := (List.chain'_cons.mp hcsuf).1
            exact fun hmem => hr ⟨hw, hmem⟩
          have hassoc : pre ++ y :: rest2 = (pre ++ [y]) ++ rest2 := by simp
          have hlen2 : pre.length + 1 = (pre ++ [y]).length := by simp
          rw [hassoc, hlen2, ih rest2 (pre ++ [y]) (by simp at hlen ⊢; omega)
            ?hpre2 ?hadj2]
          · simp [hw, hy]
          case hpre2 =>
            intro a ha
            rcases List.mem_append.mp ha with hin | hin
            · exact hpre a hin
            · simp at hin
              subst hin
              exact hy
          case hadj2 =>
            rw [← hassoc]
            apply List.chain'_append.mpr
            refine ⟨hcpre, (List.chain'_cons.mp hcsuf).2, ?_⟩
            intro x hx y' hy'
            simp at hy'
            subst hy'
            intro hcontra
            exact absurd hcontra.1 (hpre x (List.mem_of_mem_getLast? hx))
      · rw [if_neg hw]
        have hassoc : pre ++ w :: rest = (pre ++ [w]) ++ rest := by simp
        have hlen2 : pre.length + 1 = (pre ++ [w]).length := by simp
        rw [hassoc, hlen2, ih rest (pre ++ [w]) (by simp at hlen ⊢; omega)
          ?hpre2 ?hadj2]
        · simp [hw]
        case hpre2 =>
          intro a ha
          rcases List.mem_append.mp ha with hin | hin
          · exact hpre a hin
          · simp at hin
            subst hin
            exact hw
        case hadj2 =>
          rw [← hassoc]
          exact hadj

/-- C3 counterexample.  The claim says every stop-word token is removed from
every multi-token query, but removing while iterating skips the element that
follows each removal: for `"The The Meadows"` the second `"The"` — a
stop-word token — survives in the token list from which the stem is then
computed. -/
theorem stopword_removal_counterexample :
    "The" ∈ stop_words ∧
    1 < (pySplitSpace "The The Meadows").length ∧
    searchTokens "The The Meadows" = ["The", "Meadows"] ∧
    ¬(∀ w ∈ searchTokens "The The Meadows", w ∉ stop_words) := by
  decide

/-- C3 amended.  For every query splitting into more than one token, the
single removal pass deletes exactly the stop-word tokens *provided no two
stop-word tokens are adjacent* (a stop word immediately after a removed one
survives); in particular for `"The Meadows"` only `["Meadows"]` remains and
the stem is taken from that first remaining token. -/
theorem stopword_removal_amended :
    (∀ name : String,
      1 < (pySplitSpace name).length →
      NoAdjacentStops stop_words (pySplitSpace name) →
      searchTokens name =
        (pySplitSpace name).filter (fun w => decide (w ∉ stop_words))) ∧
    searchTokens "The Meadows" = ["Meadows"] ∧
    searchStem "The Meadows" = .ok "Mea" := by
  refine ⟨?_, by decide, rfl⟩
  intro name hlen hadj
  unfold searchTokens stopWordLoop
  rw [if_pos hlen]
  have := stopWordLoopF_filter stop_words (pySplitSpace name).length
    (pySplitSpace name) [] le_rfl (by simp) (by simpa using hadj)
  simpa using this

theorem stopword_removal_amended_witness :
    searchTokens "The Green Meadows" =
      (pySplitSpace "The Green Meadows").filter
        (fun w => decide (w ∉ stop_words)) :=
  (stopword_removal_amended).1 "The Green Meadows" (by decide)
    (by
      have h : pySplitSpace "The Green Meadows" = ["The", "Green", "Meadows"] := by
        decide
      unfold NoAdjacentStops
      rw [h, List.chain'_cons, List.chain'_cons]
      exact ⟨by decide, by decide, List.chain'_singleton _⟩)

end RentalListings
